import Mathlib

/-!
Verification of the client-side synchronization and control layer of the
Full-Economy-ABM-Simulation dashboards (world-viewer and control-tower).

The repository's relevant TypeScript is shallowly embedded below:

* `SimState` / `updateAgents` / `toggleLayer` / `setConnectionError` —
  the world-viewer Zustand store (frontend/world-viewer/src/store/simulationStore.ts).
* `DashState` / `updateMetrics` — the control-tower Zustand store
  (frontend/control-tower/src/store/dashboardStore.ts).
* `handleWorldDelta` — the `world.delta` branch of `handleMessage` in
  frontend/world-viewer/src/hooks/useWebSocket.ts.
* `handleCommandError` — the per-command `onError` handlers of
  frontend/world-viewer/src/hooks/useSimulationControl.ts.
* `handleJump` — the jump confirmation handler of the TimeBar component.
* `wheelZoom` — the wheel handler of `setupCameraControls` in
  frontend/world-viewer/src/components/WorldViewer.tsx.
* `wsStep` / `wsRun` — the connection life cycle of `useWebSocket`
  (connect, onopen, onclose, reconnect timer, heartbeat, disconnect).
* `dashStep` / `dashRun` — the connection life cycle of `connectWebSocket`
  in frontend/control-tower/src/hooks/useDashboardData.ts.

JavaScript numbers are modelled as `ℚ` (the constants involved are exact
decimals and only order comparisons and multiplications occur), logical
times as `Int`, free-form `any` payloads as opaque `String`s, and partial
JS objects (fields that a delta may or may not mention) as `Option` fields.
-/

/-- One simulated actor of the world-viewer registry (store `Agent`).
The TypeScript record has `agent_id` plus free-form fields; the fields the
claims inspect are `agent_type` and `status`, kept as `Option` so that a
delta record can leave a field unmentioned (JS `undefined`). -/
structure Agent where
  agent_id : Nat
  agent_type : Option String
  status : Option String
  deriving Repr, DecidableEq

/-- KPI block of a metrics sample (`MetricsData.kpis`). -/
structure Kpis where
  gdp : ℚ
  unemployment : ℚ
  inflation : ℚ
  policy_rate : ℚ
  credit_growth : Option ℚ
  default_rate : Option ℚ
  total_agents : Nat
  deriving Repr, DecidableEq

/-- One observation of economic indicators (`MetricsData`).  The
control-tower variant also carries optional free-form regional and
sectoral payloads (modelled as opaque strings). -/
structure MetricsData where
  timestamp : Int
  kpis : Kpis
  regional_data : Option String
  sectoral_data : Option String
  deriving Repr, DecidableEq

/-- Run mode of the simulation (`state` field of `SimulationStatus`). -/
inductive RunMode
  | stopped
  | running
  | paused
  | stepping
  | rewinding
  deriving Repr, DecidableEq

/-- World-viewer `simulationStatus` payload. -/
structure SimulationStatus where
  state : RunMode
  current_time : Int
  speed : ℚ
  total_agents : Nat
  steps_per_second : ℚ
  deriving Repr, DecidableEq

/-- Layer keys of the world-viewer `showLayers` record. -/
inductive Layer
  | agents
  | unemployment
  | population
  | firms
  | banks
  deriving Repr, DecidableEq

/-- The `showLayers` record: one boolean visibility flag per layer. -/
structure ShowLayers where
  agents : Bool
  unemployment : Bool
  population : Bool
  firms : Bool
  banks : Bool
  deriving Repr, DecidableEq

/-- Read the flag of one layer key. -/
def ShowLayers.get (s : ShowLayers) : Layer → Bool
  | .agents => s.agents
  | .unemployment => s.unemployment
  | .population => s.population
  | .firms => s.firms
  | .banks => s.banks

/-- The spread-with-one-negated-key update performed by `toggleLayer`:
`{ ...state.showLayers, [layer]: !state.showLayers[layer] }`. -/
def ShowLayers.toggle (s : ShowLayers) : Layer → ShowLayers
  | .agents => { s with agents := !s.agents }
  | .unemployment => { s with unemployment := !s.unemployment }
  | .population => { s with population := !s.population }
  | .firms => { s with firms := !s.firms }
  | .banks => { s with banks := !s.banks }

/-- Camera transform of the world viewer. -/
structure Camera where
  x : ℚ
  y : ℚ
  zoom : ℚ
  deriving Repr, DecidableEq

/-- The world-viewer Zustand store (`SimulationState` of
simulationStore.ts).  Events are `any[]`; each event is modelled as an
opaque payload string. -/
structure SimState where
  isConnected : Bool
  connectionError : Option String
  simulationStatus : Option SimulationStatus
  agents : List Agent
  metrics : Option MetricsData
  events : List String
  selectedAgent : Option Agent
  showLayers : ShowLayers
  camera : Camera
  deriving Repr, DecidableEq

/-- `initialState` of simulationStore.ts. -/
def initialSimState : SimState where
  isConnected := false
  connectionError := none
  simulationStatus := none
  agents := []
  metrics := none
  events := []
  selectedAgent := none
  showLayers := { agents := true, unemployment := false, population := true,
                  firms := true, banks := true }
  camera := { x := 0, y := 0, zoom := 1 }

/-- `setConnectionError` of simulationStore.ts: `set({ connectionError: error })`. -/
def setConnectionError (st : SimState) (e : Option String) : SimState :=
  { st with connectionError := e }

/-- `updateAgents` of simulationStore.ts: `set({ agents })` — the incoming
list wholesale replaces the registry — followed by the selected-agent
refresh: if a record with the selected agent's id is found in the incoming
list, the selection is repointed at that record. -/
def updateAgents (st : SimState) (agents : List Agent) : SimState :=
  let st1 := { st with agents := agents }
  match st.selectedAgent with
  | some sel =>
    match agents.find? (fun a => a.agent_id == sel.agent_id) with
    | some updated => { st1 with selectedAgent := some updated }
    | none => st1
  | none => st1

/-- `toggleLayer` of simulationStore.ts. -/
def toggleLayer (st : SimState) (l : Layer) : SimState :=
  { st with showLayers := st.showLayers.toggle l }

/-- Payload of a `world.delta` message as read by `handleMessage` of
useWebSocket.ts: an optional `actors_delta` list. -/
structure WorldDelta where
  actors_delta : Option (List Agent)
  deriving Repr, DecidableEq

/-- The `world.delta` branch of `handleMessage` (useWebSocket.ts line 120):
`if (message.data.actors_delta) updateAgents(message.data.actors_delta)`. -/
def handleWorldDelta (st : SimState) (d : WorldDelta) : SimState :=
  match d.actors_delta with
  | some as => updateAgents st as
  | none => st

/-- Control-tower `SimulationStatus` (dashboardStore.ts), which carries two
fields more than the world-viewer one. -/
structure DashSimulationStatus where
  state : RunMode
  current_time : Int
  speed : ℚ
  total_agents : Nat
  elapsed_real_time : ℚ
  steps_per_second : ℚ
  memory_usage_mb : ℚ
  deriving Repr, DecidableEq

/-- Control-tower `DashboardEvent`. -/
structure DashboardEvent where
  timestamp : Int
  event_type : String
  actor_id : Option Int
  payload : String
  metadata : Option String
  deriving Repr, DecidableEq

/-- The `chartTimeRange` UI selector of the control-tower store. -/
inductive ChartRange
  | oneHour
  | sixHours
  | day
  | week
  deriving Repr, DecidableEq

/-- The control-tower Zustand store (`DashboardState` of dashboardStore.ts).
Scenario and snapshot payloads are free-form and modelled as opaque strings. -/
structure DashState where
  isConnected : Bool
  connectionError : Option String
  lastUpdateTime : Option Int
  simulationStatus : Option DashSimulationStatus
  currentMetrics : Option MetricsData
  metricsHistory : List MetricsData
  events : List DashboardEvent
  scenarios : List String
  snapshots : List String
  selectedScenario : Option String
  autoRefresh : Bool
  refreshInterval : Int
  chartTimeRange : ChartRange
  selectedMetrics : List String
  deriving Repr, DecidableEq

/-- `initialState` of dashboardStore.ts. -/
def initialDashState : DashState where
  isConnected := false
  connectionError := none
  lastUpdateTime := none
  simulationStatus := none
  currentMetrics := none
  metricsHistory := []
  events := []
  scenarios := []
  snapshots := []
  selectedScenario := none
  autoRefresh := true
  refreshInterval := 2000
  chartTimeRange := .oneHour
  selectedMetrics := ["gdp", "unemployment", "inflation", "policy_rate"]

/-- The history update of `updateMetrics` (dashboardStore.ts line 132):
`[...state.metricsHistory.slice(-99), metrics]`.  JS `slice(-99)` keeps
the last 99 elements (all of them when fewer), i.e. drops
`length - 99` from the front under truncated subtraction. -/
def updateMetricsHistory (h : List MetricsData) (m : MetricsData) : List MetricsData :=
  h.drop (h.length - 99) ++ [m]

/-- `updateMetrics` of dashboardStore.ts; `now` stands for the `Date.now()`
wall-clock read stored into `lastUpdateTime`. -/
def updateMetrics (st : DashState) (m : MetricsData) (now : Int) : DashState :=
  { st with currentMetrics := some m
            metricsHistory := updateMetricsHistory st.metricsHistory m
            lastUpdateTime := some now }

/-- Fold a sequence of `updateMetrics` pushes (sample paired with its
`Date.now()` reading) over the store. -/
def pushAllMetrics (st : DashState) (ps : List (MetricsData × Int)) : DashState :=
  ps.foldl (fun s p => updateMetrics s p.1 p.2) st

/-- A sample with the given timestamp and fixed KPI contents, used for
concrete scenarios. -/
def mkSample (t : Nat) : MetricsData where
  timestamp := (t : Int)
  kpis := { gdp := 0, unemployment := 0, inflation := 0, policy_rate := 0,
            credit_growth := none, default_rate := none, total_agents := 0 }
  regional_data := none
  sectoral_data := none

/-- The seven control commands of `useSimulationControl`. -/
inductive Cmd
  | play
  | pause
  | step
  | setSpeed
  | jump
  | rewind
  | reset
  deriving Repr, DecidableEq

/-- The per-command fallback error string of the `onError` handlers of
useSimulationControl.ts. -/
def cmdFallback : Cmd → String
  | .play => "播放失败"
  | .pause => "暂停失败"
  | .step => "步进失败"
  | .setSpeed => "设置速度失败"
  | .jump => "时间跳转失败"
  | .rewind => "倒带失败"
  | .reset => "重置失败"

/-- JS `error.message || fallback`: a missing (`undefined`) or empty message
string is falsy and yields the fallback; any non-empty string is kept. -/
def jsOrElse (msg : Option String) (fallback : String) : String :=
  match msg with
  | some m => if m = "" then fallback else m
  | none => fallback

/-- The `onError` handler that every mutation of useSimulationControl.ts
installs: `setConnectionError(error.message || fallback)`.  The rejection
is consumed by the handler (the embedding is a total function on the
store), so nothing propagates to the caller. -/
def handleCommandError (c : Cmd) (msg : Option String) (st : SimState) : SimState :=
  setConnectionError st (some (jsOrElse msg (cmdFallback c)))

/-- Which control-API path a confirmed time jump invokes. -/
inductive JumpAction
  | rewindCall (target : Int)
  | jumpCall (target : Int)
  | noAction
  deriving Repr, DecidableEq

/-- `handleJump` of the TimeBar component: the parsed target (`none` for a
NaN parse) is acted on only when non-negative; a target strictly below the
current logical time goes to the rewind path, otherwise to the jump path. -/
def handleJump (target : Option Int) (currentTime : Int) : JumpAction :=
  match target with
  | some t => if 0 ≤ t then (if t < currentTime then .rewindCall t else .jumpCall t) else .noAction
  | none => .noAction

/-- One wheel event of `setupCameraControls` (WorldViewer.tsx lines 250-258):
`zoomFactor = deltaY > 0 ? 0.9 : 1.1`;
`newZoom = max(0.1, min(5, currentZoom * zoomFactor))`. -/
def wheelZoom (deltaY : ℚ) (zoom : ℚ) : ℚ :=
  let zoomFactor : ℚ := if 0 < deltaY then 9 / 10 else 11 / 10
  max (1 / 10) (min 5 (zoom * zoomFactor))

/-- The zoom after a finite sequence of wheel events with the given
`deltaY` values. -/
def applyWheelEvents (zoom : ℚ) (ds : List ℚ) : ℚ :=
  ds.foldl (fun z d => wheelZoom d z) zoom

/-- `connectionState` of the `useWebSocket` hook. -/
inductive Phase
  | connecting
  | connected
  | disconnected
  deriving Repr, DecidableEq

/-- The observable connection-lifecycle state of `useWebSocket`
(useWebSocket.ts): the `connectionState` React state, the store's
`isConnected` flag and `connectionError`, the `reconnectAttempts` ref and
whether a reconnect timeout is pending (`reconnectTimeoutRef`). -/
structure WsState where
  phase : Phase
  isConnected : Bool
  connError : Option String
  attempts : Nat
  timerPending : Bool
  deriving Repr, DecidableEq

/-- Messages the hook sends on the channel, plus the observable act of
creating a new socket (a connection attempt inside `connect()`). -/
inductive WsMsg
  | subscribe
  | ping
  | connectAttempt
  deriving Repr, DecidableEq

/-- Environment events driving `useWebSocket`: the socket callbacks
`onopen` and `onclose`, the reconnect timeout firing, one 30-second
heartbeat interval tick, and an explicit `disconnect()` call. -/
inductive WsEvent
  | onOpen
  | onClose
  | timerFire
  | heartbeatTick
  | userDisconnect
  deriving Repr, DecidableEq

/-- `maxReconnectAttempts` of useWebSocket.ts. -/
def maxReconnectAttempts : Nat := 5

/-- One transition of the `useWebSocket` life cycle, returning the new
state and the messages sent during the callback.

* `onOpen` fires only for the socket created while `connecting` (a
  WebSocket fires `onopen` at most once): it sets `connected`, stores
  `isConnected := true`, clears the connection error, zeroes the attempt
  counter and sends the single subscribe envelope.
* `onClose` fires only while a socket is live (`connecting` or
  `connected`): it sets `disconnected`; below the bound it increments the
  attempt counter and schedules the reconnect timeout, at the bound it
  sets the terminal error and schedules nothing.
* `timerFire` delivers a pending reconnect timeout: `connect()` runs,
  creating a fresh socket (a connection attempt) in phase `connecting`.
* `heartbeatTick` is one period of the 30-second heartbeat interval,
  which exists exactly while `connectionState` is `connected`.
* `userDisconnect` is `disconnect()`: it cancels any pending reconnect
  timeout, closes the socket and forces the disconnected state. -/
def wsStep (s : WsState) : WsEvent → WsState × List WsMsg
  | .onOpen =>
    if s.phase = .connecting then
      ({ s with phase := .connected, isConnected := true, connError := none,
                attempts := 0 }, [.subscribe])
    else (s, [])
  | .onClose =>
    if s.phase = .disconnected then (s, [])
    else if s.attempts < maxReconnectAttempts then
      ({ s with phase := .disconnected, isConnected := false,
                attempts := s.attempts + 1, timerPending := true }, [])
    else
      ({ s with phase := .disconnected, isConnected := false,
                connError := some "连接失败，已达到最大重试次数" }, [])
  | .timerFire =>
    if s.timerPending then
      ({ s with timerPending := false, phase := .connecting }, [.connectAttempt])
    else (s, [])
  | .heartbeatTick =>
    if s.phase = .connected then (s, [.ping]) else (s, [])
  | .userDisconnect =>
    ({ s with phase := .disconnected, isConnected := false, timerPending := false }, [])

/-- Run a sequence of events, accumulating all sent messages in order. -/
def wsRun : WsState → List WsEvent → WsState × List WsMsg
  | s, [] => (s, [])
  | s, e :: es =>
    let p := wsStep s e
    let r := wsRun p.1 es
    (r.1, p.2 ++ r.2)

/-- The hook state right after the mount-time `connect()` call. -/
def wsInit : WsState where
  phase := .connecting
  isConnected := false
  connError := none
  attempts := 0
  timerPending := false

/-- Whether a message is the subscribe envelope. -/
def isSubscribe : WsMsg → Bool
  | .subscribe => true
  | _ => false

/-- The control-tower `connectWebSocket` life cycle (useDashboardData.ts):
its `onclose` handler schedules `setTimeout(connectWebSocket, 3000)`
unconditionally, and the unmount cleanup only calls `close()` on the
socket — it never clears that timeout. -/
structure DashWsState where
  isConnected : Bool
  timerPending : Bool
  deriving Repr, DecidableEq

/-- Events driving `connectWebSocket`: socket open and close callbacks,
the scheduled reconnect timeout firing, and the effect's unmount cleanup
running after the socket has already closed (the scenario of the claim,
where the close precedes the cleanup, so `close()` is a no-op). -/
inductive DashEvent
  | onOpen
  | onClose
  | cleanup
  | timerFire
  deriving Repr, DecidableEq

/-- Observable outputs of the dashboard connection code. -/
inductive DashMsg
  | subscribe
  | connectAttempt
  deriving Repr, DecidableEq

/-- One transition of the dashboard `connectWebSocket` life cycle.  The
cleanup closes the (already closed) socket and touches nothing else — in
particular the pending reconnect timeout survives it, and when it fires,
`connectWebSocket` runs and creates a fresh socket. -/
def dashStep (s : DashWsState) : DashEvent → DashWsState × List DashMsg
  | .onOpen => ({ s with isConnected := true }, [.subscribe])
  | .onClose => ({ isConnected := false, timerPending := true }, [])
  | .cleanup => (s, [])
  | .timerFire =>
    if s.timerPending then
      ({ s with timerPending := false }, [.connectAttempt])
    else (s, [])

/-- Run a sequence of dashboard events, accumulating outputs. -/
def dashRun : DashWsState → List DashEvent → DashWsState × List DashMsg
  | s, [] => (s, [])
  | s, e :: es =>
    let p := dashStep s e
    let r := dashRun p.1 es
    (r.1, p.2 ++ r.2)

/-- Unfolding equation for a wheel event followed by more events. -/
lemma applyWheelEvents_cons (z d : ℚ) (tl : List ℚ) :
    applyWheelEvents z (d :: tl) = applyWheelEvents (wheelZoom d z) tl := rfl

/-- Folding `updateMetricsHistory` from the empty history keeps exactly the
last (at most) 100 pushed samples, in arrival order. -/
lemma foldl_updateMetricsHistory (ms : List MetricsData) :
    List.foldl updateMetricsHistory [] ms = ms.drop (ms.length - 100) := by
  induction ms using List.reverseRecOn with
  | nil => rfl
  | append_singleton l m ih =>
    rw [List.foldl_append, List.foldl_cons, List.foldl_nil, ih]
    unfold updateMetricsHistory
    rw [List.length_drop, List.drop_drop, List.drop_append_eq_append_drop]
    simp only [List.length_append, List.length_singleton]
    have h1 : l.length - 100 + (l.length - (l.length - 100) - 99)
        = l.length + 1 - 100 := by omega
    have h2 : l.length + 1 - 100 - l.length = 0 := by omega
    rw [h1, h2, List.drop_zero]

/-- The metrics history of a folded sequence of `updateMetrics` pushes is
the fold of `updateMetricsHistory` over the pushed samples. -/
lemma pushAllMetrics_history (ps : List (MetricsData × Int)) :
    ∀ st : DashState, (pushAllMetrics st ps).metricsHistory
      = List.foldl updateMetricsHistory st.metricsHistory (ps.map Prod.fst) := by
  induction ps with
  | nil => intro st; rfl
  | cons p tl ih =>
    intro st
    have h : pushAllMetrics st (p :: tl) = pushAllMetrics (updateMetrics st p.1 p.2) tl := rfl
    rw [h, ih]
    rfl

/-- Claim C2: pushing any sequence of metric samples through
`updateMetrics` into the initially empty store leaves a `metricsHistory`
of length at most 100 whose contents are exactly the most recent pushed
samples in arrival order (a drop of the arrival sequence); in particular
pushing the 150 samples with timestamps 1..150 leaves exactly the samples
with timestamps 51..150, in order. -/
theorem metricsHistory_bounded_ring_buffer (ps : List (MetricsData × Int)) :
    (pushAllMetrics initialDashState ps).metricsHistory.length ≤ 100 ∧
    (pushAllMetrics initialDashState ps).metricsHistory
      = (ps.map Prod.fst).drop (ps.length - 100) ∧
    (pushAllMetrics initialDashState
        ((List.range' 1 150).map (fun t => (mkSample t, 0)))).metricsHistory
      = (List.range' 51 100).map mkSample := by
  have hgen : ∀ qs : List (MetricsData × Int),
      (pushAllMetrics initialDashState qs).metricsHistory
        = (qs.map Prod.fst).drop (qs.length - 100) := by
    intro qs
    rw [pushAllMetrics_history qs initialDashState]
    have h0 : initialDashState.metricsHistory = [] := rfl
    rw [h0, foldl_updateMetricsHistory, List.length_map]
  refine ⟨?_, hgen ps, ?_⟩
  · rw [hgen ps, List.length_drop, List.length_map]
    omega
  · rw [hgen]
    simp only [List.map_map, List.length_map, List.length_range']
    have hcomp : (Prod.fst ∘ fun t => (mkSample t, (0 : Int))) = mkSample := rfl
    rw [hcomp]
    have hdrop : (150 : Nat) - 100 = 50 := rfl
    rw [hdrop, ← List.map_drop]
    have hrange : (List.range' 1 150).drop 50 = List.range' 51 100 := by decide
    rw [hrange]

/-- Claim C10: toggling a layer twice restores the store exactly; a single
`toggleLayer k` negates precisely the flag of layer `k`, leaves every
other layer flag as it was, and leaves every other store field unchanged. -/
theorem toggleLayer_involutive_and_local (st : SimState) (l l' : Layer) :
    toggleLayer (toggleLayer st l) l = st ∧
    (toggleLayer st l).showLayers.get l'
      = (if l' = l then !(st.showLayers.get l') else st.showLayers.get l') ∧
    (toggleLayer st l).isConnected = st.isConnected ∧
    (toggleLayer st l).connectionError = st.connectionError ∧
    (toggleLayer st l).simulationStatus = st.simulationStatus ∧
    (toggleLayer st l).agents = st.agents ∧
    (toggleLayer st l).metrics = st.metrics ∧
    (toggleLayer st l).events = st.events ∧
    (toggleLayer st l).selectedAgent = st.selectedAgent ∧
    (toggleLayer st l).camera = st.camera := by
  obtain ⟨ic, ce, ss, ag, me, ev, sa, sl, ca⟩ := st
  obtain ⟨a, u, p, f, b⟩ := sl
  cases l <;> cases l' <;>
    simp [toggleLayer, ShowLayers.toggle, ShowLayers.get]

/-- Claim C5: when any of the seven control commands fails, the handler
sets the store's connection error to the rejection's message when that
message is a non-empty string and to the command's fixed non-empty
fallback otherwise (never the empty string), and leaves every other store
field unchanged; the handler is a total function on the store, so no
exception propagates to the caller. -/
theorem commandError_fallback_and_untouched_store
    (c : Cmd) (msg : Option String) (st : SimState) :
    (handleCommandError c msg st).connectionError
      = some (jsOrElse msg (cmdFallback c)) ∧
    jsOrElse msg (cmdFallback c) ≠ "" ∧
    (∀ m : String, jsOrElse (some m) (cmdFallback c)
      = if m = "" then cmdFallback c else m) ∧
    jsOrElse none (cmdFallback c) = cmdFallback c ∧
    (handleCommandError c msg st).isConnected = st.isConnected ∧
    (handleCommandError c msg st).simulationStatus = st.simulationStatus ∧
    (handleCommandError c msg st).agents = st.agents ∧
    (handleCommandError c msg st).metrics = st.metrics ∧
    (handleCommandError c msg st).events = st.events ∧
    (handleCommandError c msg st).selectedAgent = st.selectedAgent ∧
    (handleCommandError c msg st).showLayers = st.showLayers ∧
    (handleCommandError c msg st).camera = st.camera := by
  refine ⟨rfl, ?_, fun m => rfl, rfl, rfl, rfl, rfl, rfl, rfl, rfl, rfl, rfl⟩
  rcases msg with _ | m
  · cases c <;> decide
  · by_cases h : m = ""
    · rw [h]
      cases c <;> decide
    · simp [jsOrElse, h]

/-- Claim C6: a confirmed time jump with non-negative target `t` at
current logical time `c` takes the rewind path with `t` exactly when
`t < c` and the jump path with `t` exactly when `c ≤ t`; in particular
target 50 at time 120 rewinds and target 200 at time 120 jumps. -/
theorem handleJump_rewind_iff_lt (t c : Int) (h : 0 ≤ t) :
    (handleJump (some t) c = .rewindCall t ↔ t < c) ∧
    (handleJump (some t) c = .jumpCall t ↔ c ≤ t) ∧
    handleJump (some 50) 120 = .rewindCall 50 ∧
    handleJump (some 200) 120 = .jumpCall 200 := by
  refine ⟨?_, ?_, by decide, by decide⟩
  · by_cases hlt : t < c <;> simp [handleJump, h, hlt]
  · by_cases hlt : t < c
    · simp [handleJump, h, hlt]
    · simp [handleJump, h, hlt]
      omega

/-- Witness for claim C6 at the concrete inputs of the scenario. -/
theorem handleJump_rewind_iff_lt_witness :
    (handleJump (some 50) 120 = .rewindCall 50 ↔ (50 : Int) < 120) ∧
    (handleJump (some 200) 120 = .jumpCall 200 ↔ (120 : Int) ≤ 200) :=
  ⟨(handleJump_rewind_iff_lt 50 120 (by decide)).1,
   (handleJump_rewind_iff_lt 200 120 (by decide)).2.1⟩

/-- Claim C7: starting from any zoom in [0.1, 5], any finite sequence of
wheel events — each multiplying the zoom by 0.9 or 1.1 according to the
sign of its deltaY and clamping — leaves the zoom within [0.1, 5],
whatever the number of events and the deltaY magnitudes. -/
theorem camera_zoom_stays_clamped (z : ℚ) (ds : List ℚ)
    (h1 : 1 / 10 ≤ z) (h2 : z ≤ 5) :
    1 / 10 ≤ applyWheelEvents z ds ∧ applyWheelEvents z ds ≤ 5 := by
  induction ds generalizing z with
  | nil => exact ⟨h1, h2⟩
  | cons d tl ih =>
    rw [applyWheelEvents_cons]
    have hlo : 1 / 10 ≤ wheelZoom d z := by
      simp only [wheelZoom]
      exact le_max_left _ _
    have hhi : wheelZoom d z ≤ 5 := by
      simp only [wheelZoom]
      exact max_le (by norm_num) (min_le_left _ _)
    exact ih (wheelZoom d z) hlo hhi

/-- Witness for claim C7 at a concrete start zoom and wheel sequence. -/
theorem camera_zoom_stays_clamped_witness :
    1 / 10 ≤ applyWheelEvents 1 [3, -2, 7] ∧ applyWheelEvents 1 [3, -2, 7] ≤ 5 :=
  camera_zoom_stays_clamped 1 [3, -2, 7] (by norm_num) (by norm_num)

/-- Claim C9: when an agents update arrives while a non-null agent is
selected and a record with the selected id is found in the incoming list,
the selection is replaced by that incoming record — which is an element
of the new registry, so the selection is never a stale copy of an agent
present in the registry — and the registry becomes the incoming list. -/
theorem selection_refreshed_on_update (st : SimState) (agents : List Agent)
    (sel updated : Agent)
    (hsel : st.selectedAgent = some sel)
    (hfind : agents.find? (fun a => a.agent_id == sel.agent_id) = some updated) :
    (updateAgents st agents).selectedAgent = some updated ∧
    updated ∈ agents ∧
    (updateAgents st agents).agents = agents := by
  refine ⟨?_, List.mem_of_find?_eq_some hfind, ?_⟩
  · simp [updateAgents, hsel, hfind]
  · simp [updateAgents, hsel, hfind]

/-- Witness for claim C9: a concrete selected agent is refreshed to the
incoming record carrying the same id. -/
theorem selection_refreshed_on_update_witness :
    (updateAgents
        { initialSimState with selectedAgent := some ⟨5, some "firm", some "active"⟩ }
        [⟨5, none, some "bankrupt"⟩]).selectedAgent
      = some ⟨5, none, some "bankrupt"⟩ :=
  (selection_refreshed_on_update
    { initialSimState with selectedAgent := some ⟨5, some "firm", some "active"⟩ }
    [⟨5, none, some "bankrupt"⟩]
    ⟨5, some "firm", some "active"⟩ ⟨5, none, some "bankrupt"⟩
    rfl rfl).1

/-- Counterexample to claim C1: the code replaces the registry with the
incoming `actors_delta` wholesale instead of upserting.  From a registry
holding `{id:5, type:"firm", status:"active"}`, the delta
`{id:5, status:"bankrupt"}` (no `type` field) yields a registry whose only
record has no `type` field — the merged record the claim promises is not
in the registry — and an entity absent from the delta (id 7) does not
remain: it is dropped. -/
theorem worldDelta_upsert_counterexample :
    (handleWorldDelta
        { initialSimState with agents := [⟨5, some "firm", some "active"⟩] }
        { actors_delta := some [⟨5, none, some "bankrupt"⟩] }).agents
      = [⟨5, none, some "bankrupt"⟩] ∧
    Agent.mk 5 (some "firm") (some "bankrupt") ∉
      (handleWorldDelta
        { initialSimState with agents := [⟨5, some "firm", some "active"⟩] }
        { actors_delta := some [⟨5, none, some "bankrupt"⟩] }).agents ∧
    (handleWorldDelta
        { initialSimState with agents := [⟨7, some "person", some "active"⟩] }
        { actors_delta := some [⟨5, none, some "bankrupt"⟩] }).agents
      = [⟨5, none, some "bankrupt"⟩] := by decide

/-- Claim C1 as amended: applying a `world.delta` message carrying an
`actors_delta` list replaces the entity registry wholesale with that list
— a known id takes exactly the delta's fields (fields the delta does not
mention are lost), an unknown id is inserted, and entities absent from
the delta are removed; a message without `actors_delta` leaves the store
unchanged. -/
theorem worldDelta_replaces_registry (st : SimState) (delta : List Agent) :
    (handleWorldDelta st { actors_delta := some delta }).agents = delta ∧
    handleWorldDelta st { actors_delta := none } = st := by
  constructor
  · rcases hsel : st.selectedAgent with _ | sel
    · simp [handleWorldDelta, updateAgents, hsel]
    · rcases hfind : delta.find? (fun a => a.agent_id == sel.agent_id) with _ | u <;>
        simp [handleWorldDelta, updateAgents, hsel, hfind]
  · rfl

/-- From a disconnected state, as long as the reconnect timeout never
fires, no message is ever sent and the phase stays disconnected. -/
lemma wsRun_disconnected (es : List WsEvent) :
    ∀ s : WsState, WsEvent.timerFire ∉ es → s.phase = .disconnected →
      (wsRun s es).2 = [] ∧ (wsRun s es).1.phase = .disconnected := by
  induction es with
  | nil => intro s _ h; exact ⟨rfl, h⟩
  | cons e tl ih =>
    intro s hmem h
    have hmem' : WsEvent.timerFire ∉ tl := fun hc => hmem (List.mem_cons_of_mem _ hc)
    cases e with
    | onOpen =>
      have hstep : wsStep s .onOpen = (s, []) := by simp [wsStep, h]
      simpa [wsRun, hstep] using ih s hmem' h
    | onClose =>
      have hstep : wsStep s .onClose = (s, []) := by simp [wsStep, h]
      simpa [wsRun, hstep] using ih s hmem' h
    | timerFire => exact absurd (List.mem_cons_self _ _) hmem
    | heartbeatTick =>
      have hstep : wsStep s .heartbeatTick = (s, []) := by simp [wsStep, h]
      simpa [wsRun, hstep] using ih s hmem' h
    | userDisconnect =>
      have hstep : wsStep s .userDisconnect = (⟨Phase.disconnected, false, s.connError, s.attempts, false⟩, ([] : List WsMsg)) := rfl
      simpa [wsRun, hstep] using ih _ hmem' rfl

/-- From a connected state, as long as the reconnect timeout never fires,
no further subscribe envelope is ever sent. -/
lemma wsRun_connected_no_subscribe (es : List WsEvent) :
    ∀ s : WsState, WsEvent.timerFire ∉ es → s.phase = .connected →
      List.countP isSubscribe (wsRun s es).2 = 0 := by
  induction es with
  | nil => intro s _ _; rfl
  | cons e tl ih =>
    intro s hmem h
    have hmem' : WsEvent.timerFire ∉ tl := fun hc => hmem (List.mem_cons_of_mem _ hc)
    cases e with
    | onOpen =>
      have hstep : wsStep s .onOpen = (s, []) := by simp [wsStep, h]
      simpa [wsRun, hstep] using ih s hmem' h
    | onClose =>
      by_cases ha : s.attempts < maxReconnectAttempts
      · have hstep : wsStep s .onClose = (⟨Phase.disconnected, false, s.connError, s.attempts + 1, true⟩, ([] : List WsMsg)) := by
          simp [wsStep, h, ha]
        have htail := (wsRun_disconnected tl ⟨Phase.disconnected, false, s.connError, s.attempts + 1, true⟩ hmem' rfl).1
        simp [wsRun, hstep, htail]
      · have hstep : wsStep s .onClose = (⟨Phase.disconnected, false, some "连接失败，已达到最大重试次数", s.attempts, s.timerPending⟩, ([] : List WsMsg)) := by
          simp [wsStep, h, ha]
        have htail := (wsRun_disconnected tl ⟨Phase.disconnected, false, some "连接失败，已达到最大重试次数", s.attempts, s.timerPending⟩ hmem' rfl).1
        simp [wsRun, hstep, htail]
    | timerFire => exact absurd (List.mem_cons_self _ _) hmem
    | heartbeatTick =>
      have hstep : wsStep s .heartbeatTick = (s, [.ping]) := by simp [wsStep, h]
      simpa [wsRun, hstep, List.countP_cons, isSubscribe] using ih s hmem' h
    | userDisconnect =>
      have hstep : wsStep s .userDisconnect = (⟨Phase.disconnected, false, s.connError, s.attempts, false⟩, ([] : List WsMsg)) := rfl
      have htail := (wsRun_disconnected tl ⟨Phase.disconnected, false, s.connError, s.attempts, false⟩ hmem' rfl).1
      simp [wsRun, hstep, htail]

/-- From a connecting state, as long as the reconnect timeout never fires
(no second socket is created), at most one subscribe envelope is sent and
no message of any kind precedes the subscribe envelope in the send
order. -/
lemma wsRun_connecting_subscribe (es : List WsEvent) :
    ∀ s : WsState, WsEvent.timerFire ∉ es → s.phase = .connecting →
      List.countP isSubscribe (wsRun s es).2 ≤ 1 ∧
      (wsRun s es).2.takeWhile (fun m => !(isSubscribe m)) = [] := by
  induction es with
  | nil => intro s _ _; exact ⟨by simp [wsRun], rfl⟩
  | cons e tl ih =>
    intro s hmem h
    have hmem' : WsEvent.timerFire ∉ tl := fun hc => hmem (List.mem_cons_of_mem _ hc)
    cases e with
    | onOpen =>
      have hstep : wsStep s .onOpen = (⟨Phase.connected, true, none, 0, s.timerPending⟩, [WsMsg.subscribe]) := by
        simp [wsStep, h]
      have htail := wsRun_connected_no_subscribe tl ⟨Phase.connected, true, none, 0, s.timerPending⟩ hmem' rfl
      constructor
      · simp [wsRun, hstep, List.countP_cons, isSubscribe, htail]
      · simp [wsRun, hstep, List.takeWhile_cons, isSubscribe]
    | onClose =>
      by_cases ha : s.attempts < maxReconnectAttempts
      · have hstep : wsStep s .onClose = (⟨Phase.disconnected, false, s.connError, s.attempts + 1, true⟩, ([] : List WsMsg)) := by
          simp [wsStep, h, ha]
        have htail := (wsRun_disconnected tl ⟨Phase.disconnected, false, s.connError, s.attempts + 1, true⟩ hmem' rfl).1
        constructor
        · simp [wsRun, hstep, htail]
        · simp [wsRun, hstep, htail]
      · have hstep : wsStep s .onClose = (⟨Phase.disconnected, false, some "连接失败，已达到最大重试次数", s.attempts, s.timerPending⟩, ([] : List WsMsg)) := by
          simp [wsStep, h, ha]
        have htail := (wsRun_disconnected tl ⟨Phase.disconnected, false, some "连接失败，已达到最大重试次数", s.attempts, s.timerPending⟩ hmem' rfl).1
        constructor
        · simp [wsRun, hstep, htail]
        · simp [wsRun, hstep, htail]
    | timerFire => exact absurd (List.mem_cons_self _ _) hmem
    | heartbeatTick =>
      have hstep : wsStep s .heartbeatTick = (s, []) := by simp [wsStep, h]
      have ihs := ih s hmem' h
      constructor
      · simpa [wsRun, hstep] using ihs.1
      · simpa [wsRun, hstep] using ihs.2
    | userDisconnect =>
      have hstep : wsStep s .userDisconnect = (⟨Phase.disconnected, false, s.connError, s.attempts, false⟩, ([] : List WsMsg)) := rfl
      have htail := (wsRun_disconnected tl ⟨Phase.disconnected, false, s.connError, s.attempts, false⟩ hmem' rfl).1
      constructor
      · simp [wsRun, hstep, htail]
      · simp [wsRun, hstep, htail]

/-- A disconnected state with no pending reconnect timeout is inert: timer
and heartbeat ticks neither send anything nor change the state. -/
lemma wsRun_idle (es : List WsEvent) :
    ∀ s : WsState, (∀ e ∈ es, e = WsEvent.timerFire ∨ e = WsEvent.heartbeatTick) →
      s.phase = .disconnected → s.timerPending = false →
      (wsRun s es).2 = [] ∧ (wsRun s es).1 = s := by
  induction es with
  | nil => intro s _ _ _; exact ⟨rfl, rfl⟩
  | cons e tl ih =>
    intro s hes h ht
    have hes' : ∀ e ∈ tl, e = WsEvent.timerFire ∨ e = WsEvent.heartbeatTick :=
      fun e he => hes e (List.mem_cons_of_mem _ he)
    rcases hes e (List.mem_cons_self _ _) with he | he <;> subst he
    · have hstep : wsStep s .timerFire = (s, []) := by simp [wsStep, ht]
      simpa [wsRun, hstep] using ih s hes' h ht
    · have hstep : wsStep s .heartbeatTick = (s, []) := by simp [wsStep, h]
      simpa [wsRun, hstep] using ih s hes' h ht

/-- Claim C4: the reconnect attempt counter is 0 immediately after any
successful open; a close while the counter is below the bound of 5
increments it by exactly 1 and schedules a reconnect; a close once the
counter has reached the bound schedules no reconnect, leaves the counter
as it is, and sets the terminal connection error. -/
theorem reconnect_counter_discipline (s : WsState) :
    ((wsStep s .onOpen).1.attempts = if s.phase = .connecting then 0 else s.attempts) ∧
    (s.phase ≠ .disconnected → s.attempts < maxReconnectAttempts →
      (wsStep s .onClose).1.attempts = s.attempts + 1 ∧
      (wsStep s .onClose).1.timerPending = true) ∧
    (s.phase ≠ .disconnected → s.attempts = maxReconnectAttempts →
      (wsStep s .onClose).1.attempts = s.attempts ∧
      (wsStep s .onClose).1.timerPending = s.timerPending ∧
      (wsStep s .onClose).1.connError = some "连接失败，已达到最大重试次数") := by
  refine ⟨?_, ?_, ?_⟩
  · by_cases h : s.phase = .connecting <;> simp [wsStep, h]
  · intro h1 h2
    simp [wsStep, h1, h2]
  · intro h1 h2
    simp [wsStep, h1, h2, maxReconnectAttempts]

/-- Witness for claim C4: the counter resets to 0 on a concrete open,
a concrete failed attempt increments 3 to 4, and a close at the bound
sets the terminal error. -/
theorem reconnect_counter_discipline_witness :
    (wsStep ⟨Phase.connecting, false, none, 3, false⟩ .onOpen).1.attempts = 0 ∧
    (wsStep ⟨Phase.connected, true, none, 3, false⟩ .onClose).1.attempts = 4 ∧
    (wsStep ⟨Phase.connected, true, none, 5, false⟩ .onClose).1.connError
      = some "连接失败，已达到最大重试次数" := by
  refine ⟨?_, ?_, ?_⟩
  · have h := (reconnect_counter_discipline ⟨Phase.connecting, false, none, 3, false⟩).1
    simpa using h
  · exact ((reconnect_counter_discipline ⟨Phase.connected, true, none, 3, false⟩).2.1
      (by decide) (by decide)).1
  · exact ((reconnect_counter_discipline ⟨Phase.connected, true, none, 5, false⟩).2.2
      (by decide) (by decide)).2.2

/-- Claim C8: within a connection lifetime (a run from the connecting
state in which the reconnect timeout never fires, so no second channel is
created), at most one subscribe envelope is sent and no message at all —
in particular no ping — precedes the subscribe envelope; the subscribe is
emitted exactly by the successful-open transition, and a heartbeat period
emits a ping exactly when the connection is in the connected state (the
heartbeat interval exists only while connected and fires once per
30-second period). -/
theorem subscribe_once_before_pings (es : List WsEvent)
    (hre : WsEvent.timerFire ∉ es) :
    List.countP isSubscribe (wsRun wsInit es).2 ≤ 1 ∧
    (wsRun wsInit es).2.takeWhile (fun m => !(isSubscribe m)) = [] ∧
    (∀ s : WsState, (wsStep s .heartbeatTick).2
      = if s.phase = .connected then [WsMsg.ping] else []) ∧
    (∀ s : WsState, s.phase = .connecting →
      wsStep s .onOpen
        = (⟨Phase.connected, true, none, 0, s.timerPending⟩, [WsMsg.subscribe])) := by
  obtain ⟨h1, h2⟩ := wsRun_connecting_subscribe es wsInit hre rfl
  refine ⟨h1, h2, ?_, ?_⟩
  · intro s
    by_cases h : s.phase = .connected <;> simp [wsStep, h]
  · intro s h
    simp [wsStep, h]

/-- Witness for claim C8 on the concrete lifetime open, two heartbeat
periods, close: exactly the subscribe then two pings are sent. -/
theorem subscribe_once_before_pings_witness :
    List.countP isSubscribe
      (wsRun wsInit [WsEvent.onOpen, .heartbeatTick, .heartbeatTick, .onClose]).2 ≤ 1 ∧
    (wsRun wsInit [WsEvent.onOpen, .heartbeatTick, .heartbeatTick, .onClose]).2.takeWhile
      (fun m => !(isSubscribe m)) = [] ∧
    (wsStep wsInit .onOpen).2 = [WsMsg.subscribe] := by
  have h := subscribe_once_before_pings
    [WsEvent.onOpen, .heartbeatTick, .heartbeatTick, .onClose] (by decide)
  refine ⟨h.1, h.2.1, ?_⟩
  rw [h.2.2.2 wsInit rfl]

/-- Counterexample to claim C3: in the control-tower dashboard
(useDashboardData.ts), the unmount cleanup runs after a channel close but
does not cancel the reconnect timeout scheduled by the close handler, so
when the timeout elapses a reconnect attempt (a fresh socket) is made
after the intentional shutdown. -/
theorem reconnect_after_cleanup_counterexample :
    DashMsg.connectAttempt ∈
      (dashRun { isConnected := true, timerPending := false }
        [DashEvent.onClose, DashEvent.cleanup, DashEvent.timerFire]).2 := by decide

/-- Claim C3 as amended: in the world-viewer hook, `disconnect()` cancels
any pending reconnect timeout, and a disconnected state with no pending
timeout is inert — later timer or heartbeat ticks never produce a
reconnect attempt, so that client never reopens a channel; in the
control-tower dashboard, however, the unmount cleanup leaves the pending
reconnect timeout in place and sends nothing, and when that timeout fires
it produces a reconnect attempt. -/
theorem disconnect_cancels_viewer_not_dashboard
    (s : WsState) (d : DashWsState) (es : List WsEvent)
    (hes : ∀ e ∈ es, e = WsEvent.timerFire ∨ e = WsEvent.heartbeatTick) :
    ((wsStep s .userDisconnect).1.timerPending = false) ∧
    (s.phase = .disconnected → s.timerPending = false →
      (wsRun s es).2 = [] ∧ (wsRun s es).1 = s) ∧
    ((dashStep d .cleanup).1.timerPending = d.timerPending ∧
      (dashStep d .cleanup).2 = []) ∧
    (d.timerPending = true →
      dashStep d .timerFire = (⟨d.isConnected, false⟩, [DashMsg.connectAttempt])) := by
  refine ⟨rfl, ?_, ⟨rfl, rfl⟩, ?_⟩
  · intro h ht
    exact wsRun_idle es s hes h ht
  · intro h
    simp [dashStep, h]

/-- Witness for claim C3 (amended): a concrete closed-then-disconnected
viewer state stays silent through later ticks, while the dashboard's
pending timeout fires a reconnect attempt after cleanup. -/
theorem disconnect_cancels_viewer_not_dashboard_witness :
    ((wsStep ⟨Phase.disconnected, false, none, 1, true⟩ .userDisconnect).1.timerPending
      = false) ∧
    (wsRun ⟨Phase.disconnected, false, none, 1, false⟩
      [WsEvent.timerFire, WsEvent.heartbeatTick]).2 = [] ∧
    dashStep ⟨false, true⟩ .timerFire = (⟨false, false⟩, [DashMsg.connectAttempt]) := by
  refine ⟨?_, ?_, ?_⟩
  · exact (disconnect_cancels_viewer_not_dashboard
      ⟨Phase.disconnected, false, none, 1, true⟩ ⟨false, true⟩ [] (by decide)).1
  · exact ((disconnect_cancels_viewer_not_dashboard
      ⟨Phase.disconnected, false, none, 1, false⟩ ⟨false, true⟩
      [WsEvent.timerFire, WsEvent.heartbeatTick] (by decide)).2.1 rfl rfl).1
  · exact (disconnect_cancels_viewer_not_dashboard
      ⟨Phase.disconnected, false, none, 1, false⟩ ⟨false, true⟩ [] (by decide)).2.2.2 rfl
